import Mathlib

/-!
Verification development for the MyGPT repository: a chat application whose
frontend (frontend/src/App.jsx) selects a model preference and posts chat
turns, and whose backend routes each message to one of several hosted models
with fallback, persisting conversation history.

The frontend definitions below are shallow embeddings of frontend/src/App.jsx.
The backend (backend/main.py and backend/model_router.py) is referenced by the
repository documentation but its source is not part of the repository snapshot;
the backend definitions are therefore modelled from the specification, each one
marked as such in its doc comment.
-/

namespace MyGPT

/-! ## Frontend model catalog and request construction (from frontend/src/App.jsx) -/

/-- An entry of the client-side model list in App.jsx (lines 25-36):
id, display name, description. -/
structure ModelOption where
  id : String
  name : String
  description : String
deriving DecidableEq, Repr

/-- The `models` array of App.jsx lines 25-36: the fixed client catalog shown
in the model selector dropdown. -/
def models : List ModelOption :=
  [⟨"auto", "Auto Select", "Automatically chooses best model"⟩,
   ⟨"mistral-7b", "Mistral 7B", "Fast general chat"⟩,
   ⟨"llama-3.2-3b", "Llama 3.2 3B", "Efficient assistant"⟩,
   ⟨"qwen-coder-7b", "Qwen Coder 7B", "Coding specialist"⟩,
   ⟨"deepseek-coder", "DeepSeek Coder", "Code expert"⟩,
   ⟨"qwen-math", "Qwen Math 7B", "Math and reasoning"⟩,
   ⟨"deepseek-r1", "DeepSeek R1", "Deep reasoning"⟩,
   ⟨"llama-8b", "Llama 3.1 8B", "Creative writing"⟩,
   ⟨"qwen-multilingual", "Qwen 7B", "Multilingual"⟩,
   ⟨"gpt2", "GPT-2", "Fallback model"⟩]

/-- The `model_preference` field of the /chat request body built by
`handleSend` (App.jsx line 163): null when the selected model is the
pseudo-entry "auto", otherwise the selected id itself. -/
def modelPreference (selectedModel : String) : Option String :=
  if selectedModel = "auto" then none else some selectedModel

/-- Whitespace trimming at both ends of a character list. -/
def trimChars (cs : List Char) : List Char :=
  ((cs.dropWhile Char.isWhitespace).reverse.dropWhile Char.isWhitespace).reverse

/-- Embedding of the JavaScript `trim()` (and of the analogous server-side
strip of the incoming message): the string with leading and trailing
whitespace removed. -/
def jsTrim (s : String) : String :=
  String.mk (trimChars s.toList)

/-- The guard at the top of `handleSend` (App.jsx line 147):
`if (!input.trim()) return;` - a /chat request is issued exactly when the
input is non-empty after trimming whitespace. -/
def handleSendIssuesRequest (input : String) : Bool :=
  jsTrim input != ""

/-! ## Backend router (modelled from the spec) -/

/-- Modelled from the spec: the routing category enum of the ModelProfile
data model (spec section 3); backend/model_router.py is missing from the
snapshot. -/
inductive MsgCategory where
  | general
  | code
  | math
  | reasoning
  | creative
  | multilingual
  | fallback
deriving DecidableEq, Repr, Fintype

/-- Modelled from the spec: the fixed category-to-preferred-model table of
spec section 4.2, with ids taken from the repository model table
(README.md and the App.jsx catalog); backend/model_router.py is missing. -/
def preferredModel : MsgCategory → String
  | MsgCategory.general => "mistral-7b"
  | MsgCategory.code => "qwen-coder-7b"
  | MsgCategory.math => "qwen-math"
  | MsgCategory.reasoning => "deepseek-r1"
  | MsgCategory.creative => "llama-8b"
  | MsgCategory.multilingual => "qwen-multilingual"
  | MsgCategory.fallback => "gpt2"

/-- Modelled from the spec: the designated fallback model (README.md:
GPT-2 is the fallback model). -/
def fallbackModel : String := "gpt2"

/-- Modelled from the spec: the backend Model Catalog of ModelProfile ids
(spec section 4.1), the nine real models of the repository model table;
the frontend pseudo-entry "auto" is not a backend profile. -/
def backendCatalog : List String :=
  ["mistral-7b", "llama-3.2-3b", "qwen-coder-7b", "deepseek-coder",
   "qwen-math", "deepseek-r1", "llama-8b", "qwen-multilingual", "gpt2"]

/-- True when the second list is an initial segment of the first. -/
def startsWithChars : List Char → List Char → Bool
  | _, [] => true
  | [], _ :: _ => false
  | c :: cs, n :: ns => if c = n then startsWithChars cs ns else false

/-- True when the second list occurs contiguously inside the first. -/
def containsChars : List Char → List Char → Bool
  | [], ns => ns.isEmpty
  | c :: cs, ns => startsWithChars (c :: cs) ns || containsChars cs ns

/-- Substring test used by the classification heuristics. -/
def containsStr (hay needle : String) : Bool :=
  containsChars hay.toList needle.toList

/-- True when any of the needles occurs in the haystack. -/
def containsAny (hay : String) (needles : List String) : Bool :=
  needles.any (fun n => containsStr hay n)

/-- Modelled from the spec: code-fencing or programming keywords
(spec section 4.2). -/
def codeMarkers : List String :=
  ["```", "def ", "function", "import ", "console.log", "print(", "return "]

/-- Modelled from the spec: mathematical operators or math cues
(spec section 4.2). -/
def mathMarkers : List String :=
  ["+", "=", "solve", "calculate", "equation", "integral", "derivative"]

/-- Modelled from the spec: explicit requests for stories, poems or creative
framing (spec section 4.2). -/
def creativeMarkers : List String :=
  ["story", "poem", "haiku", "creative", "fiction", "lyrics"]

/-- Modelled from the spec: multilingual or translation markers
(spec section 4.2); a character outside the basic Latin ranges counts as a
non-English script marker. -/
def multilingualMarkers : List String :=
  ["translate", "translation"]

/-- True when the message holds a character outside the Latin and
Latin-extended ranges, taken as a non-English script marker. -/
def hasNonLatinChar (m : String) : Bool :=
  m.toList.any (fun c => 591 < c.toNat)

/-- Modelled from the spec: multi-step explain/why/reasoning cues
(spec section 4.2). -/
def reasoningMarkers : List String :=
  ["explain", "why", "reasoning", "step by step", "prove"]

/-- Modelled from the spec: the ordered, deterministic first-match-wins
classification rules of spec section 4.2 (code, math, creative,
multilingual, reasoning, otherwise general); backend/model_router.py is
missing from the snapshot. -/
def classify (m : String) : MsgCategory :=
  if containsAny m codeMarkers then MsgCategory.code
  else if containsAny m mathMarkers then MsgCategory.math
  else if containsAny m creativeMarkers then MsgCategory.creative
  else if containsAny m multilingualMarkers || hasNonLatinChar m then MsgCategory.multilingual
  else if containsAny m reasoningMarkers then MsgCategory.reasoning
  else MsgCategory.general

/-- Duplicate removal keeping the first occurrence of each id, accumulating
the ids already seen. -/
def dedupAux : List String → List String → List String
  | [], _ => []
  | x :: xs, seen =>
    if x ∈ seen then dedupAux xs seen else x :: dedupAux xs (x :: seen)

/-- Modelled from the spec: duplicate ids are removed from the candidate
chain, preserving first occurrence (spec section 4.2). -/
def dedupKeepFirst (l : List String) : List String :=
  dedupAux l []

/-- Modelled from the spec: the generic fallback tail of every chain - the
general model, then the designated fallback model (spec section 4.2). -/
def genericFallback : List String :=
  [preferredModel MsgCategory.general, fallbackModel]

/-- Modelled from the spec: the auto-routing chain - the preferred model of
the classified category, then the general model, then the fallback model,
with duplicates removed keeping first occurrence (spec section 4.2). -/
def autoChain (m : String) : List String :=
  dedupKeepFirst (preferredModel (classify m) :: genericFallback)

/-- Modelled from the spec: `route` of spec section 4.2. A present explicit
preference that resolves in the catalog is the sole primary candidate,
followed by the generic fallback chain; otherwise the message is classified
and the auto chain is used; backend/model_router.py is missing from the
snapshot. -/
def route (message : String) (explicitPreference : Option String) : List String :=
  match explicitPreference with
  | some p =>
    if p ∈ backendCatalog then dedupKeepFirst (p :: genericFallback)
    else autoChain message
  | none => autoChain message

/-! ## Backend conversation data model (modelled from the spec) -/

/-- Modelled from the spec: the message role enum of spec section 3. -/
inductive Role where
  | user
  | assistant
deriving DecidableEq, Repr

/-- Modelled from the spec: a conversation Message of spec section 3 -
role, content, and the model used (assistant messages only); the timestamp
field carries no behaviour relevant to the claims and is omitted. -/
structure Message where
  role : Role
  content : String
  modelUsed : Option String
deriving DecidableEq, Repr

/-- Modelled from the spec: a Conversation of spec section 3 - unique id,
owner (none for guest), title (none until derived on the first completed
turn), and the ordered message sequence; createdAt carries no behaviour
relevant to the claims and is omitted. -/
structure Conversation where
  id : Nat
  ownerId : Option Nat
  title : Option String
  messages : List Message
deriving DecidableEq, Repr

/-- Modelled from the spec: the GatewayError kinds of spec section 4.3. -/
inductive GatewayErrorKind where
  | timeout
  | providerError
  | rateLimited
  | unavailable
deriving DecidableEq, Repr

/-! ## Backend turn orchestrator (modelled from the spec) -/

/-- Modelled from the spec: walking the candidate chain (Invoking/Retrying
states of spec section 4.4). `gw` is the Inference Gateway of spec
section 4.3, giving each candidate model id a result. Returns the list of
candidates actually invoked together with the first success (the model id
used and the assistant text), or none when the chain is exhausted. -/
def tryChainLog (gw : String → Except GatewayErrorKind String) :
    List String → List String × Option (String × String)
  | [] => ([], none)
  | m :: rest =>
    match gw m with
    | Except.ok t => ([m], some (m, t))
    | Except.error _ =>
      let r := tryChainLog gw rest
      (m :: r.1, r.2)

/-- Modelled from the spec: the fixed user-visible failure notice returned
when the whole chain is exhausted (spec sections 4.4 and 7). -/
def apologyMessage : String :=
  "Sorry, all AI models are currently unavailable. Please try again later."

/-- Modelled from the spec: title derivation of spec section 4.4 - a
bounded-length prefix of the first user message (first 40 characters,
trimmed back to a word boundary when the message is longer). -/
def deriveTitle (s : String) : String :=
  if s.length ≤ 40 then s
  else
    let p := s.toList.take 40
    let q := ((p.reverse.dropWhile (fun c => c ≠ ' ')).dropWhile
      (fun c => c = ' ')).reverse
    String.mk (if q.isEmpty then p else q)

/-- Modelled from the spec: appending one completed turn - the user message
then the assistant message (with modelUsed set) - and deriving the title on
the first completed turn only (spec sections 4.4 and 4.5). -/
def appendTurn (conv : Conversation) (userText assistantText : String)
    (mid : Option String) : Conversation :=
  ⟨conv.id, conv.ownerId,
   (match conv.title with
    | some t => some t
    | none => some (deriveTitle userText)),
   conv.messages ++
     [⟨Role.user, userText, none⟩, ⟨Role.assistant, assistantText, mid⟩]⟩

/-- The outcome of one /chat turn: HTTP status, the conversation after the
turn, the response text, and the list of candidate models invoked. -/
structure ChatOutcome where
  status : Nat
  conv : Conversation
  response : String
  invoked : List String
deriving Repr

/-- Modelled from the spec: the Turn Orchestrator of spec section 4.4 for
one /chat turn on an already-resolved conversation. An empty or
whitespace-only message fails with 400 before any routing or invocation;
otherwise the router chain is walked, and either the first success or -
when the chain is exhausted - the fixed apology is appended as the
assistant message, always together with the user message, returning
HTTP 200; backend/main.py is missing from the snapshot. -/
def chat (gw : String → Except GatewayErrorKind String) (message : String)
    (pref : Option String) (conv : Conversation) : ChatOutcome :=
  if jsTrim message = "" then ⟨400, conv, "", []⟩
  else
    let r := tryChainLog gw (route message pref)
    match r.2 with
    | some (mid, text) =>
      ⟨200, appendTurn conv message text (some mid), text, r.1⟩
    | none =>
      ⟨200, appendTurn conv message apologyMessage none, apologyMessage, r.1⟩

/-! ## Backend conversation store (modelled from the spec) -/

/-- Modelled from the spec: `listForOwner` of spec section 4.5 - the
conversations returned by GET /conversations for an authenticated owner:
exactly those the requester owns; backend/main.py is missing from the
snapshot. -/
def listForOwner (store : List Conversation) (ownerId : Nat) :
    List Conversation :=
  store.filter (fun c => c.ownerId = some ownerId)

/-- Modelled from the spec: DELETE /conversations/(id) of spec sections 4.5
and 6 - 404 when the id is unknown, 403 (store untouched) when the
requester does not own the conversation, 204 with the conversation removed
when they own it; backend/main.py is missing from the snapshot. -/
def deleteConv (store : List Conversation) (convId : Nat)
    (requester : Nat) : Nat × List Conversation :=
  match store.find? (fun c => c.id = convId) with
  | none => (404, store)
  | some c =>
    if c.ownerId = some requester then
      (204, store.filter (fun x => x.id ≠ convId))
    else (403, store)

/-! ## Invariant predicates (spec section 3) -/

/-- The role alternating with a given one. -/
def nextRole : Role → Role
  | Role.user => Role.assistant
  | Role.assistant => Role.user

/-- Roles alternate along the list, the first expected role being `r`
(spec section 3 invariant: alternation starting with a user message, with
`r = Role.user`). -/
def alternatesFrom (r : Role) : List Message → Bool
  | [] => true
  | m :: ms => if m.role = r then alternatesFrom (nextRole r) ms else false

/-- The message sequence is a whole number of completed turns, each one a
user message followed by an assistant message - the shape every
conversation of this system has, since the orchestrator appends messages
only in such pairs. -/
def turnsShaped : List Message → Bool
  | [] => true
  | [_] => false
  | u :: a :: rest =>
    if u.role = Role.user ∧ a.role = Role.assistant then turnsShaped rest
    else false

/-! ## Concrete fixtures used to instantiate the theorems -/

/-- A gateway for which every candidate model fails. -/
def gwAllFail : String → Except GatewayErrorKind String :=
  fun _ => Except.error GatewayErrorKind.unavailable

/-- A gateway for which every candidate model succeeds. -/
def gwAllOk : String → Except GatewayErrorKind String :=
  fun _ => Except.ok "Hi, how can I help?"

/-- A fresh guest conversation. -/
def emptyConv : Conversation := ⟨1, none, none, []⟩

/-- A conversation owned by user 10, holding one completed turn. -/
def ownedConv : Conversation :=
  ⟨1, some 10, some "hi",
   [⟨Role.user, "hi", none⟩, ⟨Role.assistant, "hello", some "mistral-7b"⟩]⟩

/-- A store holding one owned and one guest conversation. -/
def sampleStore : List Conversation :=
  [ownedConv, ⟨2, none, none, []⟩]

/-! ## Helper lemmas -/

/-- The classification rules never produce the fallback category: it is
reached only through the chain tail, never as a preferred category. -/
theorem classify_ne_fallback (m : String) :
    classify m ≠ MsgCategory.fallback := by
  unfold classify
  split_ifs <;> decide

/-- Membership in the dedup accumulator pass: an id appears in the result
exactly when it appears in the input and was not already seen. -/
theorem mem_dedupAux (l : List String) : ∀ (seen : List String) (x : String),
    x ∈ dedupAux l seen ↔ x ∈ l ∧ x ∉ seen := by
  induction l with
  | nil => intro seen x; simp [dedupAux]
  | cons y ys ih =>
    intro seen x
    by_cases hy : y ∈ seen
    · rw [dedupAux, if_pos hy, ih]
      simp only [List.mem_cons]
      constructor
      · rintro ⟨h1, h2⟩
        exact ⟨Or.inr h1, h2⟩
      · rintro ⟨h1 | h1, h2⟩
        · exact absurd (h1 ▸ hy) h2
        · exact ⟨h1, h2⟩
    · rw [dedupAux, if_neg hy, List.mem_cons, ih]
      simp only [List.mem_cons]
      constructor
      · rintro (rfl | ⟨h1, h2⟩)
        · exact ⟨Or.inl rfl, hy⟩
        · refine ⟨Or.inr h1, fun hs => h2 (Or.inr hs)⟩
      · rintro ⟨h1 | h1, h2⟩
        · exact Or.inl h1
        · by_cases hxy : x = y
          · exact Or.inl hxy
          · refine Or.inr ⟨h1, fun hs => ?_⟩
            rcases hs with hs | hs
            · exact hxy hs
            · exact h2 hs

/-- Deduplication keeps exactly the ids of the input chain. -/
theorem mem_dedupKeepFirst (l : List String) (x : String) :
    x ∈ dedupKeepFirst l ↔ x ∈ l := by
  rw [dedupKeepFirst, mem_dedupAux]
  simp

/-- When every candidate of the chain fails, the whole chain is walked and
no success is found. -/
theorem tryChainLog_exhausted (gw : String → Except GatewayErrorKind String)
    (l : List String) (h : ∀ c ∈ l, ∃ e, gw c = Except.error e) :
    tryChainLog gw l = (l, none) := by
  induction l with
  | nil => rfl
  | cons x xs ih =>
    obtain ⟨e, he⟩ := h x (List.mem_cons_self x xs)
    have ihx := ih (fun c hc => h c (List.mem_cons_of_mem x hc))
    simp [tryChainLog, he, ihx]

/-- Appending one completed user/assistant turn preserves the turn shape of
the message sequence. -/
theorem turnsShaped_append (u a : Message)
    (hu : u.role = Role.user) (ha : a.role = Role.assistant)
    (ms : List Message) :
    turnsShaped ms = true → turnsShaped (ms ++ [u, a]) = true := by
  induction ms using turnsShaped.induct with
  | case1 => intro _; simp [turnsShaped, hu, ha]
  | case2 x => intro hm; simp [turnsShaped] at hm
  | case3 x y rest hc ih =>
    intro hm
    simp only [turnsShaped, hc, if_true] at hm
    simp only [List.cons_append, turnsShaped, hc, if_true]
    exact ih hm
  | case4 x y rest hc =>
    intro hm
    simp [turnsShaped, hc] at hm

/-- A sequence of completed turns alternates roles starting with a user
message. -/
theorem alternates_of_turnsShaped (ms : List Message) :
    turnsShaped ms = true → alternatesFrom Role.user ms = true := by
  induction ms using turnsShaped.induct with
  | case1 => intro _; rfl
  | case2 x => intro hm; simp [turnsShaped] at hm
  | case3 x y rest hc ih =>
    intro hm
    simp only [turnsShaped, hc, if_true] at hm
    simp only [alternatesFrom, hc.1, hc.2, nextRole, if_true, if_pos]
    exact ih hm
  | case4 x y rest hc =>
    intro hm
    simp [turnsShaped, hc] at hm

/-- Dropping a leading segment never lengthens a list. -/
theorem dropWhile_length_le {α : Type} (p : α → Bool) (l : List α) :
    (l.dropWhile p).length ≤ l.length := by
  induction l with
  | nil => simp
  | cons x xs ih =>
    rw [List.dropWhile]
    split
    · exact le_trans ih (Nat.le_succ _)
    · exact le_refl _

/-- The length of a packed character list is the length of the list. -/
theorem string_mk_length (l : List Char) : (String.mk l).length = l.length :=
  rfl

/-- The derived title never exceeds 40 characters. -/
theorem deriveTitle_length_le (s : String) : (deriveTitle s).length ≤ 40 := by
  unfold deriveTitle
  split
  · assumption
  · have hp : (s.toList.take 40).length ≤ 40 := by
      rw [List.length_take]
      exact min_le_left _ _
    have hq : ((((s.toList.take 40).reverse.dropWhile
        (fun c => c ≠ ' ')).dropWhile (fun c => c = ' ')).reverse).length
        ≤ 40 := by
      rw [List.length_reverse]
      calc (((s.toList.take 40).reverse.dropWhile
            (fun c => c ≠ ' ')).dropWhile (fun c => c = ' ')).length
          ≤ ((s.toList.take 40).reverse.dropWhile
            (fun c => c ≠ ' ')).length := dropWhile_length_le _ _
        _ ≤ (s.toList.take 40).reverse.length := dropWhile_length_le _ _
        _ = (s.toList.take 40).length := List.length_reverse _
        _ ≤ 40 := hp
    dsimp only
    rw [string_mk_length]
    split
    · exact hp
    · exact hq

/-! ## Claim theorems -/

/-- C2: for every non-empty message with no explicit preference, `route`
returns a non-empty, duplicate-free chain built as preferred model of the
classified category, then the general model, then the designated fallback
model (duplicates removed keeping first occurrence), containing at most one
of each category's preferred model and ending in the fallback model. -/
theorem route_auto_chain_wellformed (m : String) (hm : m ≠ "") :
    route m none
      = dedupKeepFirst (preferredModel (classify m) :: genericFallback) ∧
    route m none ≠ [] ∧
    (route m none).Nodup ∧
    (route m none).getLast? = some fallbackModel ∧
    ∀ cat : MsgCategory, (route m none).count (preferredModel cat) ≤ 1 := by
  have hcat := classify_ne_fallback m
  simp only [route, autoChain]
  revert hcat
  generalize classify m = cat
  intro hcat
  refine ⟨trivial, ?_⟩
  cases cat
  case fallback => exact absurd rfl hcat
  all_goals decide

/-- Witness for C2 at the concrete message "hello". -/
theorem route_auto_chain_wellformed_witness :
    route "hello" none ≠ [] ∧
    (route "hello" none).getLast? = some fallbackModel :=
  ⟨(route_auto_chain_wellformed "hello" (by decide)).2.1,
   (route_auto_chain_wellformed "hello" (by decide)).2.2.2.1⟩

/-- C3: for every message and every explicit preference that resolves in
the catalog, the chain starts with exactly that id, regardless of
classification, and every id of the generic fallback chain still appears
in the chain after it. -/
theorem explicit_preference_is_primary (m p : String)
    (hp : p ∈ backendCatalog) :
    (route m (some p)).head? = some p ∧
    ∀ x ∈ genericFallback, x ∈ route m (some p) := by
  constructor
  · simp [route, hp, dedupKeepFirst, dedupAux]
  · intro x hx
    simp only [route, if_pos hp]
    rw [mem_dedupKeepFirst]
    exact List.mem_cons_of_mem p hx

/-- Witness for C3: preference "qwen-math" with message "hello" yields
"qwen-math" as the primary candidate. -/
theorem explicit_preference_is_primary_witness :
    (route "hello" (some "qwen-math")).head? = some "qwen-math" :=
  (explicit_preference_is_primary "hello" "qwen-math" (by decide)).1

/-- C9: `route` is deterministic - two invocations with the same message
and the same explicit preference return equal ordered chains; the embedded
router reads no other state. -/
theorem route_deterministic (m1 m2 : String) (p1 p2 : Option String)
    (hm : m1 = m2) (hp : p1 = p2) : route m1 p1 = route m2 p2 := by
  rw [hm, hp]

/-- Witness for C9 at a concrete invocation pair. -/
theorem route_deterministic_witness :
    route "hello" none = route "hello" none :=
  route_deterministic "hello" "hello" none none rfl rfl

/-- C10: the /chat request built by handleSend carries
model_preference = null exactly when the selected model is "auto" and
otherwise exactly the selected id; the client catalog is a fixed 10-entry
list with pairwise-distinct ids including the fallback id "gpt2". -/
theorem client_catalog_and_model_preference (sel : String) :
    models.length = 10 ∧
    (models.map ModelOption.id).Nodup ∧
    "gpt2" ∈ models.map ModelOption.id ∧
    (modelPreference sel = none ↔ sel = "auto") ∧
    (sel ≠ "auto" → modelPreference sel = some sel) := by
  refine ⟨by decide, by decide, by decide, ?_, ?_⟩
  · constructor
    · intro h
      by_contra hne
      simp [modelPreference, hne] at h
    · intro h
      simp [modelPreference, h]
  · intro h
    simp [modelPreference, h]

/-- Witness for C10 at the concrete selections "qwen-math" and "auto". -/
theorem client_catalog_and_model_preference_witness :
    modelPreference "qwen-math" = some "qwen-math" ∧
    modelPreference "auto" = none :=
  ⟨(client_catalog_and_model_preference "qwen-math").2.2.2.2 (by decide),
   (client_catalog_and_model_preference "auto").2.2.2.1.mpr rfl⟩

/-- C1: when every candidate of the routing chain fails with a
GatewayError, the turn still returns HTTP 200, the response is the fixed
non-empty apology, and the user message of the turn is appended to the
conversation history. -/
theorem chat_total_failure_returns_apology
    (gw : String → Except GatewayErrorKind String) (message : String)
    (pref : Option String) (conv : Conversation)
    (hmsg : jsTrim message ≠ "")
    (hall : ∀ c ∈ route message pref, ∃ e, gw c = Except.error e) :
    (chat gw message pref conv).status = 200 ∧
    (chat gw message pref conv).response = apologyMessage ∧
    (chat gw message pref conv).response ≠ "" ∧
    Message.mk Role.user message none
      ∈ (chat gw message pref conv).conv.messages := by
  have ht := tryChainLog_exhausted gw (route message pref) hall
  simp only [chat, if_neg hmsg, ht]
  refine ⟨trivial, trivial, by decide, ?_⟩
  simp [appendTurn]

/-- Witness for C1: a gateway failing on every model, message "hello". -/
theorem chat_total_failure_returns_apology_witness :
    (chat gwAllFail "hello" none emptyConv).status = 200 ∧
    (chat gwAllFail "hello" none emptyConv).response = apologyMessage ∧
    (chat gwAllFail "hello" none emptyConv).response ≠ "" ∧
    Message.mk Role.user "hello" none
      ∈ (chat gwAllFail "hello" none emptyConv).conv.messages :=
  chat_total_failure_returns_apology gwAllFail "hello" none emptyConv
    (by decide) (fun c _ => ⟨GatewayErrorKind.unavailable, rfl⟩)

/-- C4: every successful /chat turn on a conversation appends exactly two
messages, a user one then an assistant one, so the message count grows by
exactly 2 and the sequence keeps alternating roles starting with a user
message. -/
theorem chat_success_appends_exactly_two
    (gw : String → Except GatewayErrorKind String) (message : String)
    (pref : Option String) (conv : Conversation)
    (hok : (chat gw message pref conv).status = 200)
    (hshape : turnsShaped conv.messages = true) :
    (chat gw message pref conv).conv.messages.length
      = conv.messages.length + 2 ∧
    (∃ um am : Message, um.role = Role.user ∧ am.role = Role.assistant ∧
      (chat gw message pref conv).conv.messages
        = conv.messages ++ [um, am]) ∧
    turnsShaped (chat gw message pref conv).conv.messages = true ∧
    alternatesFrom Role.user (chat gw message pref conv).conv.messages
      = true := by
  by_cases hmsg : jsTrim message = ""
  · simp [chat, hmsg] at hok
  · rcases htc : (tryChainLog gw (route message pref)).2 with _ | ⟨mid, text⟩
    · simp only [chat, if_neg hmsg, htc]
      refine ⟨by simp [appendTurn], ?_, ?_, ?_⟩
      · exact ⟨⟨Role.user, message, none⟩,
          ⟨Role.assistant, apologyMessage, none⟩, rfl, rfl, rfl⟩
      · exact turnsShaped_append _ _ rfl rfl conv.messages hshape
      · exact alternates_of_turnsShaped _
          (turnsShaped_append _ _ rfl rfl conv.messages hshape)
    · simp only [chat, if_neg hmsg, htc]
      refine ⟨by simp [appendTurn], ?_, ?_, ?_⟩
      · exact ⟨⟨Role.user, message, none⟩,
          ⟨Role.assistant, text, some mid⟩, rfl, rfl, rfl⟩
      · exact turnsShaped_append _ _ rfl rfl conv.messages hshape
      · exact alternates_of_turnsShaped _
          (turnsShaped_append _ _ rfl rfl conv.messages hshape)

/-- Witness for C4: a successful turn on a fresh conversation. -/
theorem chat_success_appends_exactly_two_witness :
    (chat gwAllOk "hello" none emptyConv).conv.messages.length
      = emptyConv.messages.length + 2 ∧
    alternatesFrom Role.user
      (chat gwAllOk "hello" none emptyConv).conv.messages = true :=
  ⟨(chat_success_appends_exactly_two gwAllOk "hello" none emptyConv
      (by decide) (by decide)).1,
   (chat_success_appends_exactly_two gwAllOk "hello" none emptyConv
      (by decide) (by decide)).2.2.2⟩

/-- C5: an empty or whitespace-only message fails the turn with 400, with
no model invocation and no conversation mutation; and the frontend guard
never issues a /chat request for such input in the first place. -/
theorem empty_message_is_rejected
    (gw : String → Except GatewayErrorKind String) (message input : String)
    (pref : Option String) (conv : Conversation)
    (hmsg : jsTrim message = "") (hinput : jsTrim input = "") :
    (chat gw message pref conv).status = 400 ∧
    (chat gw message pref conv).conv = conv ∧
    (chat gw message pref conv).invoked = [] ∧
    handleSendIssuesRequest input = false := by
  refine ⟨?_, ?_, ?_, ?_⟩ <;>
    simp [chat, hmsg, handleSendIssuesRequest, hinput]

/-- Witness for C5 at the whitespace-only input "   ". -/
theorem empty_message_is_rejected_witness :
    (chat gwAllOk "   " none emptyConv).status = 400 ∧
    (chat gwAllOk "   " none emptyConv).conv = emptyConv ∧
    (chat gwAllOk "   " none emptyConv).invoked = [] ∧
    handleSendIssuesRequest "   " = false :=
  empty_message_is_rejected gwAllOk "   " "   " none emptyConv
    (by decide) (by decide)

/-- C8: the conversation title is derived exactly once - on the first
completed turn, from the bounded 40-character word-boundary prefix of the
first user message - and every later turn leaves it unchanged. -/
theorem title_derived_once_and_stable
    (gw : String → Except GatewayErrorKind String) (m : String)
    (pref : Option String) (conv : Conversation) :
    (conv.title = none → (chat gw m pref conv).status = 200 →
      (chat gw m pref conv).conv.title = some (deriveTitle m)) ∧
    (∀ t, conv.title = some t → (chat gw m pref conv).conv.title = some t) ∧
    (∀ s : String, (deriveTitle s).length ≤ 40) := by
  refine ⟨?_, ?_, deriveTitle_length_le⟩
  · intro hnone hok
    by_cases hmsg : jsTrim m = ""
    · simp [chat, hmsg] at hok
    · rcases htc : (tryChainLog gw (route m pref)).2 with _ | ⟨mid, text⟩ <;>
        simp [chat, if_neg hmsg, htc, appendTurn, hnone]
  · intro t ht
    by_cases hmsg : jsTrim m = ""
    · simp [chat, hmsg, ht]
    · rcases htc : (tryChainLog gw (route m pref)).2 with _ | ⟨mid, text⟩ <;>
        simp [chat, if_neg hmsg, htc, appendTurn, ht]

/-- Witness for C8: a fresh conversation gets the derived title, a titled
conversation keeps its title. -/
theorem title_derived_once_and_stable_witness :
    (chat gwAllOk "hello" none emptyConv).conv.title
      = some (deriveTitle "hello") ∧
    (chat gwAllOk "more text" none ownedConv).conv.title = some "hi" :=
  ⟨(title_derived_once_and_stable gwAllOk "hello" none emptyConv).1
      rfl (by decide),
   (title_derived_once_and_stable gwAllOk "more text" none ownedConv).2.1
      "hi" rfl⟩

/-- C6: deleting a conversation one does not own returns 403 and leaves the
store - and in particular that conversation and its message count -
unchanged; only the owner's delete removes it (204). -/
theorem delete_requires_ownership
    (store : List Conversation) (c : Conversation) (cid requester : Nat)
    (hfind : store.find? (fun x => x.id = cid) = some c) :
    (c.ownerId ≠ some requester →
      deleteConv store cid requester = (403, store) ∧
      ((deleteConv store cid requester).2.find? (fun x => x.id = cid)).map
          (fun x => x.messages.length) = some c.messages.length) ∧
    (c.ownerId = some requester →
      (deleteConv store cid requester).1 = 204 ∧
      ∀ d ∈ (deleteConv store cid requester).2, d.id ≠ cid) := by
  constructor
  · intro hno
    have heq : deleteConv store cid requester = (403, store) := by
      simp [deleteConv, hfind, hno]
    refine ⟨heq, ?_⟩
    rw [heq]
    simp [hfind]
  · intro hyes
    have heq : deleteConv store cid requester
        = (204, store.filter (fun x => x.id ≠ cid)) := by
      simp [deleteConv, hfind, hyes]
    rw [heq]
    refine ⟨rfl, ?_⟩
    intro d hd
    have := List.of_mem_filter hd
    simpa using this

/-- Witness for C6: requester 20 does not own the stored conversation and
gets 403 with the store unchanged; owner 10 deletes it with 204. -/
theorem delete_requires_ownership_witness :
    (ownedConv.ownerId ≠ some 20 →
      deleteConv sampleStore 1 20 = (403, sampleStore) ∧
      ((deleteConv sampleStore 1 20).2.find? (fun x => x.id = 1)).map
          (fun x => x.messages.length) = some ownedConv.messages.length) ∧
    (ownedConv.ownerId = some 10 →
      (deleteConv sampleStore 1 10).1 = 204 ∧
      ∀ d ∈ (deleteConv sampleStore 1 10).2, d.id ≠ 1) :=
  ⟨(delete_requires_ownership sampleStore ownedConv 1 20 (by decide)).1,
   (delete_requires_ownership sampleStore ownedConv 1 10 (by decide)).2⟩

/-- C7: GET /conversations for an authenticated user never returns a guest
conversation - every listed conversation has a non-null owner equal to the
requester, whatever user id the requester registered under. -/
theorem guest_conversations_never_listed
    (store : List Conversation) (uid : Nat) :
    ∀ c ∈ listForOwner store uid, c.ownerId ≠ none ∧ c.ownerId = some uid := by
  intro c hc
  have hm := List.mem_filter.mp hc
  have hown : c.ownerId = some uid := by simpa using hm.2
  exact ⟨by simp [hown], hown⟩

/-- Witness for C7: the owned conversation listed for user 10 has a
non-null owner. -/
theorem guest_conversations_never_listed_witness :
    ownedConv.ownerId ≠ none ∧ ownedConv.ownerId = some 10 :=
  guest_conversations_never_listed sampleStore 10 ownedConv (by decide)

end MyGPT
